import Mathlib

/-!
Shallow embedding of the astrocalculator expression-evaluation engine
(`src/calc/calc.py` and `src/calc/__init__.py`) for checking the
natural-language specification against the code.

Modelling conventions, stated once:
* Python strings are modelled as `List Char`; `str.strip`, `str.split`,
  the `in` substring test and `str.replace` are modelled by the
  `pyStrip` / `pySplitC` / `pySplitS` / `hasSubstr` / `replaceNlSemi`
  functions below, which follow CPython semantics for the uses that
  occur in the source (single- and multi-character separators, empty
  pieces kept).
* Python / numpy floats are modelled as exact rationals (`PyRat`); the claims under
  study never depend on rounding of floating-point arithmetic.
  `numpy.sqrt` is modelled by `ratSqrt`, a rational square-root
  approximation; no claim depends on its digits.
* astropy quantities are modelled by `Value.qty mag dim kind`: an SI-basis
  magnitude, a dimension vector with rational exponents over the basis
  (m, kg, s, A, K, mol, cd, rad) — rational because the source itself
  builds `Gauss = g**(1/2) * cm**(-1/2) * s**(-1)` — and a kind that
  records whether the Python object is a plain `Quantity`, an astropy
  `Constant` (whose `str` is a full description), or a `Unit` /
  `CompositeUnit`.  astropy raises when a quantity whose dimension
  involves electric current is converted to the cgs system (the source
  comments on exactly this: "Some EM constants is unable to load because
  different cgs system has different values"); this is `hasCGS`.
* `raise` is modelled by `Except.error` carrying a `PyError`; a Python
  `return` of a tagged error tuple (err = 1) stays inside `Except.ok`.
* The constant/unit registry built at module load (calc.py lines 24-85)
  and in `AstroCalculator._initialize_constants/_initialize_units` is
  modelled by `initNS`, a representative subset of the real tables: the
  entries exercised by the claims plus enough others to keep the lookup
  structure honest.  Both variants build the same modelled subset.
  Of the registered functions only `sqrt` is exercised by the claims;
  the other numpy functions are omitted from the model.
-/

/-! ## Exact rationals

Magnitudes and dimension exponents are exact rationals.  Mathlib's `ℚ`
normalises through `Nat.gcd`, which is defined by well-founded recursion
and does not reduce in the kernel, so concrete runs of the engine could
not be certified by `decide`; `PyRat` is the same mathematical object
with a fuel-based Euclidean gcd.  Every `PyRat` produced below is
normalised (positive denominator, coprime), so structural equality is
semantic equality. -/

structure PyRat where
  n : ℤ
  d : ℕ
deriving DecidableEq, Repr

def gcdF : ℕ → ℕ → ℕ → ℕ
  | 0, a, b => a + b
  | f + 1, a, b => if a = 0 then b else gcdF f (b % a) a

def gcdN (a b : ℕ) : ℕ := gcdF (a + 1) a b

def qnorm (num : ℤ) (den : ℕ) : PyRat :=
  if den = 0 then ⟨0, 1⟩
  else
    let g := gcdN num.natAbs den
    ⟨num / (g : ℤ), den / g⟩

instance (k : ℕ) : OfNat PyRat k := ⟨⟨(k : ℤ), 1⟩⟩

def qInt (z : ℤ) : PyRat := ⟨z, 1⟩

def qadd (x y : PyRat) : PyRat := qnorm (x.n * (y.d : ℤ) + y.n * (x.d : ℤ)) (x.d * y.d)

def qneg (x : PyRat) : PyRat := ⟨-x.n, x.d⟩

def qmul (x y : PyRat) : PyRat := qnorm (x.n * y.n) (x.d * y.d)

def qinv (x : PyRat) : PyRat :=
  if x.n = 0 then ⟨0, 1⟩
  else if 0 ≤ x.n then ⟨(x.d : ℤ), x.n.natAbs⟩ else ⟨-(x.d : ℤ), x.n.natAbs⟩

def qdiv (x y : PyRat) : PyRat := qmul x (qinv y)

def qpowN (x : PyRat) (k : ℕ) : PyRat := ⟨x.n ^ k, x.d ^ k⟩

def qzpow (x : PyRat) (e : ℤ) : PyRat :=
  if 0 ≤ e then qpowN x e.toNat else qinv (qpowN x (-e).toNat)

/-- `x ≤ 0` (denominators are positive). -/
def qle0 (x : PyRat) : Bool := x.n ≤ 0

def qToStr (x : PyRat) : String :=
  if x.d = 1 then toString x.n else toString x.n ++ "/" ++ toString x.d

instance : Add PyRat := ⟨qadd⟩
instance : Neg PyRat := ⟨qneg⟩
instance : Sub PyRat := ⟨fun x y => qadd x (qneg y)⟩
instance : Mul PyRat := ⟨qmul⟩
instance : Div PyRat := ⟨qdiv⟩
instance : HPow PyRat ℕ PyRat := ⟨qpowN⟩

/-- Dimension vector over the SI basis m, kg, s, A, K, mol, cd, rad, with
rational exponents (astropy supports fractional powers, e.g. `Gauss`). -/
structure Dim where
  dlen : PyRat
  dmass : PyRat
  dtime : PyRat
  dcur : PyRat
  dtemp : PyRat
  damt : PyRat
  dlum : PyRat
  dang : PyRat
deriving DecidableEq, Repr

def Dim.zero : Dim := ⟨0, 0, 0, 0, 0, 0, 0, 0⟩

def Dim.add (a b : Dim) : Dim :=
  ⟨a.dlen + b.dlen, a.dmass + b.dmass, a.dtime + b.dtime, a.dcur + b.dcur,
   a.dtemp + b.dtemp, a.damt + b.damt, a.dlum + b.dlum, a.dang + b.dang⟩

def Dim.sub (a b : Dim) : Dim :=
  ⟨a.dlen - b.dlen, a.dmass - b.dmass, a.dtime - b.dtime, a.dcur - b.dcur,
   a.dtemp - b.dtemp, a.damt - b.damt, a.dlum - b.dlum, a.dang - b.dang⟩

def Dim.smul (c : PyRat) (a : Dim) : Dim :=
  ⟨c * a.dlen, c * a.dmass, c * a.dtime, c * a.dcur,
   c * a.dtemp, c * a.damt, c * a.dlum, c * a.dang⟩

/-- What kind of astropy object a dimensioned value is: a plain `Quantity`,
a `Constant` (carrying the description text printed by `str`), or a
`Unit` / `CompositeUnit` (carrying its display name). -/
inductive VKind where
  | plain : VKind
  | constant : String → VKind
  | unit : String → VKind
deriving DecidableEq, Repr

/-- A Python value that can appear in the calculator namespace or as an
evaluation result: `int`, `float` (including `numpy.float64`), an astropy
quantity/constant/unit, or a `str` (error-message strings end up bound as
variable values through the bug in `calc.py` line 179-180). -/
inductive Value where
  | int : ℤ → Value
  | float : PyRat → Value
  | qty : PyRat → Dim → VKind → Value
  | str : String → Value
deriving DecidableEq, Repr

/-- Modelled Python exceptions raised by the engine. -/
inductive PyError where
  | evalError : String → PyError
  | unitConversionError : String → PyError
  | attributeError : String → PyError
  | nameError : String → PyError
  | keyError : String → PyError
  | valueError : String → PyError
  | typeError : String → PyError
deriving DecidableEq, Repr

/-- One display column of a calculate result: `ret`/`ret2` in calc.py hold
either the `int` object itself, a formatted string, or (for bare units)
the `CompositeUnit` object. -/
inductive Out where
  | int : ℤ → Out
  | str : String → Out
  | unitObj : PyRat → Dim → Out
deriving DecidableEq, Repr

/-- Namespace: insertion-ordered association list, newest binding first
(models Python dict insertion/overwrite for lookup purposes). -/
abbrev NS := List (List Char × Value)

def lookupNS (k : List Char) : NS → Option Value
  | [] => none
  | (k₂, v) :: t => if k = k₂ then some v else lookupNS k t

/-! ## Python string operations over `List Char` -/

def isSpaceC (c : Char) : Bool :=
  c = ' ' || c = '\n' || c = '\t' || c = '\r'

def isDigitC (c : Char) : Bool :=
  '0' ≤ c && c ≤ '9'

def isAlphaC (c : Char) : Bool :=
  ('a' ≤ c && c ≤ 'z') || ('A' ≤ c && c ≤ 'Z')

def isWordC (c : Char) : Bool :=
  isAlphaC c || isDigitC c || c = '_'

/-- Python `str.strip()`. -/
def pyStrip (cs : List Char) : List Char :=
  ((cs.dropWhile isSpaceC).reverse.dropWhile isSpaceC).reverse

def hasChar (c : Char) : List Char → Bool
  | [] => false
  | x :: xs => x = c || hasChar c xs

/-- Python `str.split(sep)` for a one-character separator: splits at every
occurrence, keeping empty pieces. -/
def pySplitC (sep : Char) : List Char → List (List Char)
  | [] => [[]]
  | c :: cs =>
    let r := pySplitC sep cs
    if c = sep then [] :: r else (c :: r.headD []) :: r.tail

def isPrefixL : List Char → List Char → Bool
  | [], _ => true
  | _ :: _, [] => false
  | p :: ps, c :: cs => p = c && isPrefixL ps cs

/-- Python `pat in s` substring test. -/
def hasSubstr (pat : List Char) : List Char → Bool
  | [] => isPrefixL pat []
  | c :: cs => isPrefixL pat (c :: cs) || hasSubstr pat cs

/-- Python `str.split(sep)` for a multi-character separator
(left-to-right, non-overlapping); fuel-based so it stays structurally
recursive (the fuel `cs.length + 1` always suffices). -/
def pySplitSF (fuel : Nat) (pat : List Char) (cs : List Char) : List (List Char) :=
  match fuel with
  | 0 => [cs]
  | f + 1 =>
    match cs with
    | [] => [[]]
    | c :: rest =>
      if isPrefixL pat (c :: rest) then
        [] :: pySplitSF f pat (List.drop pat.length (c :: rest))
      else
        let r := pySplitSF f pat rest
        (c :: r.headD []) :: r.tail

def pySplitS (pat cs : List Char) : List (List Char) :=
  pySplitSF (cs.length + 1) pat cs

/-- Separator of the trailing unit clause, the Python literal spelled
space-i-n-space. -/
def inSep : List Char := [' ', 'i', 'n', ' ']

/-! ## Tokenizer

Models the lexical grammar that the source accepts through
`sympy.parse_expr` with `convert_xor` + `standard_transformations` +
`implicit_multiplication` (calc.py line 88), restricted to what the
engine's inputs use: integer and decimal literals, identifiers, the
operators `+ - * / ^ **`, and parentheses.  Any other character — in
particular `=` and `!` — is a lexical error, as it is for the Python
tokenizer inside `parse_expr`. -/

inductive Tok where
  | tint : ℤ → Tok
  | tfloat : PyRat → Tok
  | ident : List Char → Tok
  | plus | minus | star | slash | caret | lp | rp : Tok
deriving DecidableEq, Repr

def digVal (c : Char) : ℕ := c.toNat - 48

/-- Lexer state: inside nothing, an integer literal, a literal just after
its decimal point, a fractional part, or a word. -/
inductive LexSt where
  | idle : LexSt
  | innum : ℕ → LexSt
  | indot : ℕ → LexSt
  | infrac : ℕ → ℕ → ℕ → LexSt
  | inword : List Char → LexSt
deriving DecidableEq, Repr

def flushSt : LexSt → List Tok
  | .idle => []
  | .innum a => [.tint (a : ℤ)]
  | .indot ip => [.tfloat (qInt (ip : ℤ))]
  | .infrac ip f k => [.tfloat (qInt (ip : ℤ) + qInt (f : ℤ) / qInt ((10 : ℤ) ^ k))]
  | .inword w => [.ident w]

def lexStep (st : LexSt) (c : Char) : Except String (List Tok × LexSt) :=
  if isDigitC c then
    match st with
    | .idle => .ok ([], .innum (digVal c))
    | .innum a => .ok ([], .innum (10 * a + digVal c))
    | .indot ip => .ok ([], .infrac ip (digVal c) 1)
    | .infrac ip f k => .ok ([], .infrac ip (10 * f + digVal c) (k + 1))
    | .inword w => .ok ([], .inword (w ++ [c]))
  else if isAlphaC c || c = '_' then
    match st with
    | .inword w => .ok ([], .inword (w ++ [c]))
    | st₂ => .ok (flushSt st₂, .inword [c])
  else if c = '.' then
    match st with
    | .innum a => .ok ([], .indot a)
    | .idle => .ok ([], .indot 0)
    | _ => .error "invalid syntax"
  else if isSpaceC c then .ok (flushSt st, .idle)
  else if c = '+' then .ok (flushSt st ++ [.plus], .idle)
  else if c = '-' then .ok (flushSt st ++ [.minus], .idle)
  else if c = '*' then .ok (flushSt st ++ [.star], .idle)
  else if c = '/' then .ok (flushSt st ++ [.slash], .idle)
  else if c = '^' then .ok (flushSt st ++ [.caret], .idle)
  else if c = '(' then .ok (flushSt st ++ [.lp], .idle)
  else if c = ')' then .ok (flushSt st ++ [.rp], .idle)
  else .error "invalid syntax"

def lexFold : List Char → LexSt → Except String (List Tok)
  | [], st => .ok (flushSt st)
  | c :: cs, st =>
    match lexStep st c with
    | .error e => .error e
    | .ok (ts, st₂) => (lexFold cs st₂).map (fun r => ts ++ r)

/-- `convert_xor` turns `^` into `**`; conversely the Python fast path of
`simple_eval` replaces `^` by `**`.  Both spellings denote the same power
operator, so adjacent star tokens are merged into the power token. -/
def mergeStars : List Tok → List Tok
  | .star :: .star :: r => .caret :: mergeStars r
  | t :: r => t :: mergeStars r
  | [] => []

def lexAll (cs : List Char) : Except String (List Tok) :=
  (lexFold cs .idle).map mergeStars

/-! ## Expression trees and the recursive-descent parser -/

inductive Expr where
  | intLit : ℤ → Expr
  | floatLit : PyRat → Expr
  | evar : List Char → Expr
  | neg : Expr → Expr
  | add : Expr → Expr → Expr
  | sub : Expr → Expr → Expr
  | mul : Expr → Expr → Expr
  | div : Expr → Expr → Expr
  | pow : Expr → Expr → Expr
  | call : List Char → Expr → Expr
deriving DecidableEq, Repr

/-- The function names the parser recognises as prefix calls; of the
functions the source registers, `sqrt` is the only one the claims
exercise. -/
def funcNames : List (List Char) := [['s', 'q', 'r', 't']]

/-- `in` is a Python keyword: an expression containing it does not parse
as an algebraic expression (the real code fails inside `parse_expr` /
`eval`; the model reports it as a syntax error, which reaches the same
observable raise). -/
def inWord : List Char := ['i', 'n']

def startsFactor : Tok → Bool
  | .tint _ => true
  | .tfloat _ => true
  | .ident _ => true
  | .lp => true
  | _ => false

mutual

def parseAdd : Nat → List Tok → Except String (Expr × List Tok)
  | 0, _ => .error "invalid syntax"
  | f + 1, ts =>
    match parseMul f ts with
    | .error e => .error e
    | .ok (e, r) => parseAddRest f e r

def parseAddRest : Nat → Expr → List Tok → Except String (Expr × List Tok)
  | 0, _, _ => .error "invalid syntax"
  | f + 1, e, ts =>
    match ts with
    | .plus :: r =>
      match parseMul f r with
      | .error e₂ => .error e₂
      | .ok (b, r₂) => parseAddRest f (.add e b) r₂
    | .minus :: r =>
      match parseMul f r with
      | .error e₂ => .error e₂
      | .ok (b, r₂) => parseAddRest f (.sub e b) r₂
    | _ => .ok (e, ts)

def parseMul : Nat → List Tok → Except String (Expr × List Tok)
  | 0, _ => .error "invalid syntax"
  | f + 1, ts =>
    match parseUnary f ts with
    | .error e => .error e
    | .ok (e, r) => parseMulRest f e r

def parseMulRest : Nat → Expr → List Tok → Except String (Expr × List Tok)
  | 0, _, _ => .error "invalid syntax"
  | f + 1, e, ts =>
    match ts with
    | .star :: r =>
      match parseUnary f r with
      | .error e₂ => .error e₂
      | .ok (b, r₂) => parseMulRest f (.mul e b) r₂
    | .slash :: r =>
      match parseUnary f r with
      | .error e₂ => .error e₂
      | .ok (b, r₂) => parseMulRest f (.div e b) r₂
    | t :: r =>
      if startsFactor t then
        match parsePow f (t :: r) with
        | .error e₂ => .error e₂
        | .ok (b, r₂) => parseMulRest f (.mul e b) r₂
      else .ok (e, ts)
    | [] => .ok (e, [])

def parseUnary : Nat → List Tok → Except String (Expr × List Tok)
  | 0, _ => .error "invalid syntax"
  | f + 1, ts =>
    match ts with
    | .minus :: r =>
      match parseUnary f r with
      | .error e => .error e
      | .ok (e, r₂) => .ok (.neg e, r₂)
    | .plus :: r => parseUnary f r
    | _ => parsePow f ts

def parsePow : Nat → List Tok → Except String (Expr × List Tok)
  | 0, _ => .error "invalid syntax"
  | f + 1, ts =>
    match parseAtom f ts with
    | .error e => .error e
    | .ok (a, r) =>
      match r with
      | .caret :: r₂ =>
        match parseUnary f r₂ with
        | .error e => .error e
        | .ok (b, r₃) => .ok (.pow a b, r₃)
      | _ => .ok (a, r)

def parseAtom : Nat → List Tok → Except String (Expr × List Tok)
  | 0, _ => .error "invalid syntax"
  | f + 1, ts =>
    match ts with
    | .tint n :: r => .ok (.intLit n, r)
    | .tfloat q :: r => .ok (.floatLit q, r)
    | .ident s :: r =>
      if s = inWord then .error "invalid syntax"
      else if funcNames.contains s then
        match r with
        | .lp :: r₂ =>
          match parseAdd f r₂ with
          | .error e => .error e
          | .ok (arg, r₃) =>
            match r₃ with
            | .rp :: r₄ => .ok (.call s arg, r₄)
            | _ => .error "invalid syntax"
        | _ => .ok (.evar s, r)
      else .ok (.evar s, r)
    | .lp :: r =>
      match parseAdd f r with
      | .error e => .error e
      | .ok (e, r₂) =>
        match r₂ with
        | .rp :: r₃ => .ok (e, r₃)
        | _ => .error "invalid syntax"
    | _ => .error "invalid syntax"

end

def parseToks (ts : List Tok) : Except String Expr :=
  match parseAdd (5 * ts.length + 10) ts with
  | .error e => .error e
  | .ok (e, r) => if r = [] then .ok e else .error "invalid syntax"

def parseE (cs : List Char) : Except String Expr :=
  match lexAll cs with
  | .error e => .error e
  | .ok ts => if ts = [] then .error "invalid syntax" else parseToks ts

/-! ## Canonical reprinting

Models `str(parse_expr(...))` (calc.py line 124, `simple_eval` line 143):
the canonical text of the parsed tree that the code echoes back and then
feeds to `eval`.  The model evaluates the tree directly, which agrees
with evaluating the reprinted text since reprinting/reparsing
round-trips; the printed form itself is asserted by the theorems only
for bare identifiers, where sympy prints exactly the name. -/

def printExpr : Expr → String
  | .intLit n => toString n
  | .floatLit q => qToStr q
  | .evar s => String.mk s
  | .neg e => "-" ++ printExpr e
  | .add a b => printExpr a ++ " + " ++ printExpr b
  | .sub a b => printExpr a ++ " - " ++ printExpr b
  | .mul a b => printExpr a ++ "*" ++ printExpr b
  | .div a b => printExpr a ++ "/" ++ printExpr b
  | .pow a b => printExpr a ++ "**" ++ printExpr b
  | .call f e => String.mk f ++ "(" ++ printExpr e ++ ")"

/-! ## Arithmetic on values

Python / numpy / astropy semantics for the operations the engine uses:
`int op int` stays `int` for `+ - *`; `/` is true division and produces a
float; `**` with a nonnegative integer exponent keeps `int`.  astropy
addition requires equal dimension vectors; multiplication and division
add or subtract them; a scalar combines with a dimensionless quantity.
Arithmetic involving a bare `Unit` on either side of `+`/`-` is a
`TypeError` in Python; any arithmetic result that is a quantity is a
plain `Quantity` except `Unit * Unit`, `Unit / Unit` and `Unit ** int`,
which stay `CompositeUnit`s. -/

/-- Integer square root by Newton iteration (fuel-based so that it stays
structurally recursive and kernel-computable). -/
def natSqrtF : ℕ → ℕ → ℕ → ℕ
  | 0, _, g => g
  | f + 1, n, g =>
    let next := (g + n / g) / 2
    if next < g then natSqrtF f n next else g

def natSqrtA (n : ℕ) : ℕ := if n ≤ 1 then n else natSqrtF n n n

def ratSqrt (q : PyRat) : PyRat :=
  if qle0 q then 0 else qdiv (qInt (natSqrtA (q.n.toNat * q.d))) (qInt (q.d : ℤ))

def VKind.isUnit : VKind → Bool
  | .unit _ => true
  | _ => false

def unitName : VKind → String
  | .unit n => n
  | .constant _ => "const"
  | .plain => "quantity"

def nconvMsg : String := "are not convertible"

def addVals (a b : Value) : Except String Value :=
  match a, b with
  | .int x, .int y => .ok (.int (x + y))
  | .int x, .float y => .ok (.float (qInt x + y))
  | .float x, .int y => .ok (.float (x + qInt y))
  | .float x, .float y => .ok (.float (x + y))
  | .int x, .qty m d k =>
    if k.isUnit then .error "unsupported operand type for +"
    else if d = Dim.zero then .ok (.qty (qInt x + m) d .plain) else .error nconvMsg
  | .float x, .qty m d k =>
    if k.isUnit then .error "unsupported operand type for +"
    else if d = Dim.zero then .ok (.qty (x + m) d .plain) else .error nconvMsg
  | .qty m d k, .int y =>
    if k.isUnit then .error "unsupported operand type for +"
    else if d = Dim.zero then .ok (.qty (m + qInt y) d .plain) else .error nconvMsg
  | .qty m d k, .float y =>
    if k.isUnit then .error "unsupported operand type for +"
    else if d = Dim.zero then .ok (.qty (m + y) d .plain) else .error nconvMsg
  | .qty m₁ d₁ k₁, .qty m₂ d₂ k₂ =>
    if k₁.isUnit || k₂.isUnit then .error "unsupported operand type for +"
    else if d₁ = d₂ then .ok (.qty (m₁ + m₂) d₁ .plain) else .error nconvMsg
  | _, _ => .error "unsupported operand type for +"

def negVal (a : Value) : Except String Value :=
  match a with
  | .int x => .ok (.int (-x))
  | .float x => .ok (.float (-x))
  | .qty m d _ => .ok (.qty (-m) d .plain)
  | .str _ => .error "bad operand type for unary -"

def subVals (a b : Value) : Except String Value :=
  match negVal b with
  | .error e => .error e
  | .ok nb => addVals a nb

def mulKind (k₁ k₂ : VKind) : VKind :=
  if k₁.isUnit && k₂.isUnit then .unit (unitName k₁ ++ " " ++ unitName k₂) else .plain

def mulVals (a b : Value) : Except String Value :=
  match a, b with
  | .int x, .int y => .ok (.int (x * y))
  | .int x, .float y => .ok (.float (qInt x * y))
  | .float x, .int y => .ok (.float (x * qInt y))
  | .float x, .float y => .ok (.float (x * y))
  | .int x, .qty m d _ => .ok (.qty (qInt x * m) d .plain)
  | .float x, .qty m d _ => .ok (.qty (x * m) d .plain)
  | .qty m d _, .int y => .ok (.qty (m * qInt y) d .plain)
  | .qty m d _, .float y => .ok (.qty (m * y) d .plain)
  | .qty m₁ d₁ k₁, .qty m₂ d₂ k₂ => .ok (.qty (m₁ * m₂) (d₁.add d₂) (mulKind k₁ k₂))
  | _, _ => .error "unsupported operand type for *"

def divKind (k₁ k₂ : VKind) : VKind :=
  if k₁.isUnit && k₂.isUnit then .unit (unitName k₁ ++ " / " ++ unitName k₂) else .plain

def divVals (a b : Value) : Except String Value :=
  match a, b with
  | .int x, .int y =>
    if y = 0 then .error "division by zero" else .ok (.float (qInt x / qInt y))
  | .int x, .float y =>
    if y = 0 then .error "division by zero" else .ok (.float (qInt x / y))
  | .float x, .int y =>
    if y = 0 then .error "division by zero" else .ok (.float (x / qInt y))
  | .float x, .float y =>
    if y = 0 then .error "division by zero" else .ok (.float (x / y))
  | .int x, .qty m d _ =>
    if m = 0 then .error "division by zero"
    else .ok (.qty (qInt x / m) (Dim.zero.sub d) .plain)
  | .float x, .qty m d _ =>
    if m = 0 then .error "division by zero"
    else .ok (.qty (x / m) (Dim.zero.sub d) .plain)
  | .qty m d _, .int y =>
    if y = 0 then .error "division by zero" else .ok (.qty (m / qInt y) d .plain)
  | .qty m d _, .float y =>
    if y = 0 then .error "division by zero" else .ok (.qty (m / y) d .plain)
  | .qty m₁ d₁ k₁, .qty m₂ d₂ k₂ =>
    if m₂ = 0 then .error "division by zero"
    else .ok (.qty (m₁ / m₂) (d₁.sub d₂) (divKind k₁ k₂))
  | _, _ => .error "unsupported operand type for /"

def powKind (k : VKind) (e : ℤ) : VKind :=
  match k with
  | .unit n => .unit (n ++ "**" ++ toString e)
  | _ => .plain

def powVals (a b : Value) : Except String Value :=
  match a, b with
  | .int x, .int y =>
    if 0 ≤ y then .ok (.int (x ^ y.toNat))
    else if x = 0 then .error "zero to a negative power"
    else .ok (.float (qzpow (qInt x) y))
  | .float x, .int y =>
    if x = 0 && y < 0 then .error "zero to a negative power"
    else .ok (.float (qzpow x y))
  | .qty m d k, .int y =>
    if m = 0 && y < 0 then .error "zero to a negative power"
    else .ok (.qty (qzpow m y) (Dim.smul (qInt y) d) (powKind k y))
  | _, _ => .error "unsupported exponent"

def applyFn (f : List Char) (v : Value) : Except String Value :=
  if f = ['s', 'q', 'r', 't'] then
    match v with
    | .int x => .ok (.float (ratSqrt (qInt x)))
    | .float x => .ok (.float (ratSqrt x))
    | .qty m d _ => .ok (.qty (ratSqrt m) (Dim.smul (1 / 2 : PyRat) d) .plain)
    | .str _ => .error "bad argument to sqrt"
  else .error ("name \x27" ++ String.mk f ++ "\x27 is not defined")

def evalExpr : Expr → NS → Except String Value
  | .intLit n, _ => .ok (.int n)
  | .floatLit q, _ => .ok (.float q)
  | .evar s, ns =>
    match lookupNS s ns with
    | some v => .ok v
    | none => .error ("name \x27" ++ String.mk s ++ "\x27 is not defined")
  | .neg e, ns =>
    match evalExpr e ns with
    | .error m => .error m
    | .ok v => negVal v
  | .add a b, ns =>
    match evalExpr a ns, evalExpr b ns with
    | .ok x, .ok y => addVals x y
    | .error m, _ => .error m
    | _, .error m => .error m
  | .sub a b, ns =>
    match evalExpr a ns, evalExpr b ns with
    | .ok x, .ok y => subVals x y
    | .error m, _ => .error m
    | _, .error m => .error m
  | .mul a b, ns =>
    match evalExpr a ns, evalExpr b ns with
    | .ok x, .ok y => mulVals x y
    | .error m, _ => .error m
    | _, .error m => .error m
  | .div a b, ns =>
    match evalExpr a ns, evalExpr b ns with
    | .ok x, .ok y => divVals x y
    | .error m, _ => .error m
    | _, .error m => .error m
  | .pow a b, ns =>
    match evalExpr a ns, evalExpr b ns with
    | .ok x, .ok y => powVals x y
    | .error m, _ => .error m
    | _, .error m => .error m
  | .call f e, ns =>
    match evalExpr e ns with
    | .error m => .error m
    | .ok v => applyFn f v

/-! ## The registry (`initNS`)

A representative subset of the constant and unit tables the source
builds at startup (calc.py lines 24-85, `_initialize_constants` /
`_initialize_units` / `_define_derived_units` in `__init__.py`), with
astropy magnitudes rounded to a few significant figures — no claim
depends on the digits.  As in the source, `deg` appears in the
`user_units` list but is never actually bound in the namespace, and
`pc2`/`pc3` are squares of the `pc` *constant* and hence plain
quantities, while `m2` etc. are `CompositeUnit`s. -/

def piRat : PyRat := (3141592653589793 : PyRat) / 10 ^ 15

def dimL : Dim := ⟨1, 0, 0, 0, 0, 0, 0, 0⟩
def dimM : Dim := ⟨0, 1, 0, 0, 0, 0, 0, 0⟩
def dimT : Dim := ⟨0, 0, 1, 0, 0, 0, 0, 0⟩
def dimVel : Dim := ⟨1, 0, -1, 0, 0, 0, 0, 0⟩
def dimG : Dim := ⟨3, -1, -2, 0, 0, 0, 0, 0⟩
def dimJ : Dim := ⟨2, 1, -2, 0, 0, 0, 0, 0⟩
def dimCharge : Dim := ⟨0, 0, 1, 1, 0, 0, 0, 0⟩
def dimAng : Dim := ⟨0, 0, 0, 0, 0, 0, 0, 1⟩

def pcVal : PyRat := (30857 : PyRat) * 10 ^ 12

def mpVal : PyRat := (167262192 : PyRat) / 10 ^ 35

def MsunVal : PyRat := (19884 : PyRat) * 10 ^ 26

def eDesc : String := "Name = Electron charge, Value = 1.602176634e-19, Unit = C"

def initNS : NS := [
  ("G".data, .qty ((66743 : PyRat) / 10 ^ 15) dimG
    (.constant "Name = Gravitational constant, Value = 6.6743e-11, Unit = m3 / (kg s2)")),
  ("c".data, .qty (299792458 : PyRat) dimVel
    (.constant "Name = Speed of light in vacuum, Value = 299792458.0, Unit = m / s")),
  ("m_p".data, .qty mpVal dimM
    (.constant "Name = Proton mass, Value = 1.67262192e-27, Unit = kg")),
  ("m_e".data, .qty ((91093837 : PyRat) / 10 ^ 38) dimM
    (.constant "Name = Electron mass, Value = 9.1093837e-31, Unit = kg")),
  ("e".data, .qty ((1602176634 : PyRat) / 10 ^ 28) dimCharge (.constant eDesc)),
  ("k_B".data, .qty ((1380649 : PyRat) / 10 ^ 29) ⟨2, 1, -2, 0, -1, 0, 0, 0⟩
    (.constant "Name = Boltzmann constant, Value = 1.380649e-23, Unit = J / K")),
  ("M_sun".data, .qty MsunVal dimM
    (.constant "Name = Solar mass, Value = 1.9884e+30, Unit = kg")),
  ("pc".data, .qty pcVal dimL
    (.constant "Name = Parsec, Value = 3.0857e+16, Unit = m")),
  ("kpc".data, .qty (pcVal * 1000) dimL
    (.constant "Name = Kiloparsec, Value = 3.0857e+19, Unit = m")),
  ("au".data, .qty ((1495978707 : PyRat) * 10 ^ 2) dimL
    (.constant "Name = Astronomical Unit, Value = 1.495978707e+11, Unit = m")),
  ("m".data, .qty 1 dimL (.unit "m")),
  ("cm".data, .qty (1 / 100 : PyRat) dimL (.unit "cm")),
  ("mm".data, .qty (1 / 1000 : PyRat) dimL (.unit "mm")),
  ("km".data, .qty 1000 dimL (.unit "km")),
  ("nm".data, .qty (1 / 10 ^ 9 : PyRat) dimL (.unit "nm")),
  ("s".data, .qty 1 dimT (.unit "s")),
  ("yr".data, .qty (31557600 : PyRat) dimT (.unit "yr")),
  ("kg".data, .qty 1 dimM (.unit "kg")),
  ("g".data, .qty (1 / 1000 : PyRat) dimM (.unit "g")),
  ("K".data, .qty 1 ⟨0, 0, 0, 0, 1, 0, 0, 0⟩ (.unit "K")),
  ("Hz".data, .qty 1 ⟨0, 0, -1, 0, 0, 0, 0, 0⟩ (.unit "Hz")),
  ("J".data, .qty 1 dimJ (.unit "J")),
  ("erg".data, .qty (1 / 10 ^ 7 : PyRat) dimJ (.unit "erg")),
  ("eV".data, .qty ((1602176634 : PyRat) / 10 ^ 28) dimJ (.unit "eV")),
  ("Ang".data, .qty (1 / 10 ^ 10 : PyRat) dimL (.unit "Ang")),
  ("mpcc".data, .qty ((167262192 : PyRat) / 10 ^ 29) ⟨-3, 1, 0, 0, 0, 0, 0, 0⟩ (.unit "mpcc")),
  ("Msun".data, .qty MsunVal dimM
    (.constant "Name = Solar mass, Value = 1.9884e+30, Unit = kg")),
  ("m2".data, .qty 1 ⟨2, 0, 0, 0, 0, 0, 0, 0⟩ (.unit "m2")),
  ("m3".data, .qty 1 ⟨3, 0, 0, 0, 0, 0, 0, 0⟩ (.unit "m3")),
  ("cm2".data, .qty (1 / 10 ^ 4 : PyRat) ⟨2, 0, 0, 0, 0, 0, 0, 0⟩ (.unit "cm2")),
  ("cm3".data, .qty (1 / 10 ^ 6 : PyRat) ⟨3, 0, 0, 0, 0, 0, 0, 0⟩ (.unit "cm3")),
  ("s2".data, .qty 1 ⟨0, 0, 2, 0, 0, 0, 0, 0⟩ (.unit "s2")),
  ("pc2".data, .qty (pcVal ^ 2) ⟨2, 0, 0, 0, 0, 0, 0, 0⟩ .plain),
  ("pc3".data, .qty (pcVal ^ 3) ⟨3, 0, 0, 0, 0, 0, 0, 0⟩ .plain),
  ("degrees".data, .float (piRat / 180)),
  ("arcsec2".data, .qty ((piRat / 648000) ^ 2) ⟨0, 0, 0, 0, 0, 0, 0, 2⟩ (.unit "arcsec2")),
  ("Gauss".data, .qty (ratSqrt (1 / 10 : PyRat)) ⟨-1 / 2, 1 / 2, -1, 0, 0, 0, 0, 0⟩
    (.unit "g(1/2) cm(-1/2) / s")),
  ("pi".data, .float piRat)]

/-- The `user_units` list, verbatim from calc.py line 57 /
`AstroCalculator.user_units`: unit names the `convert` functions resolve
through the namespace rather than through astropy's unit-string parser.
(`deg` is listed but never actually bound — as in the source.) -/
def user_units : List String :=
  ["deg", "Ang", "mpcc", "m2", "m3", "cm2", "cm3", "s2", "pc2", "pc3", "arcsec2", "Msun"]

/-! ## Formatting (the display section shared by `calc.calculate` lines
188-219 and `AstroCalculator.calculate` lines 380-413, which are
line-for-line the same logic) -/

/-- Models the significant-digit formatter `F_FMT` (`"{:#.10g}"`); the
claims never constrain the digit rendering, so the rational is printed
exactly. -/
def fmtG (x : PyRat) : String := qToStr x

/-- cgs representability: astropy cannot express a dimension involving
electric current in its cgs bases and raises on `.cgs` (for `Constant`s a
`TypeError`, for quantities a `UnitConversionError`). -/
def hasCGS (d : Dim) : Bool := d.dcur = 0

def qpow10 (e : PyRat) : PyRat :=
  if e.d = 1 then qzpow 10 e.n
  else if ((2 : PyRat) * e).d = 1 then ratSqrt (qzpow 10 ((2 : PyRat) * e).n)
  else 1

/-- Magnitude of a stored (SI-basis) quantity in the cgs basis:
one factor 100 per length exponent, 1000 per mass exponent. -/
def cgsMag (m : PyRat) (d : Dim) : PyRat := m * qpow10 (2 * d.dlen + 3 * d.dmass)

def powStr (base : String) (e : PyRat) : String :=
  if e = 0 then "" else " " ++ base ++ "^" ++ qToStr e

def dimStrGen (ul um : String) (d : Dim) : String :=
  powStr ul d.dlen ++ powStr um d.dmass ++ powStr "s" d.dtime ++ powStr "A" d.dcur ++
  powStr "K" d.dtemp ++ powStr "mol" d.damt ++ powStr "cd" d.dlum ++ powStr "rad" d.dang

def dimStrSI (d : Dim) : String := dimStrGen "m" "kg" d

def dimStrCGS (d : Dim) : String := dimStrGen "cm" "g" d

def cgsFailMsg : VKind → String
  | .constant _ => "Constant does not have physically compatible units across all systems"
  | _ => "unable to convert to cgs: ampere is not present in the cgs system"

/-- `textwrap.fill(s, 80)`: the modelled diagnostic messages are shorter
than 80 characters and single-spaced, where fill is the identity. -/
def fill80 (s : String) : String := s

/-- The SI column for a dimensioned result: `F_FMT.format(Ret.si)` when
`Ret.si` is a plain `Quantity`, otherwise (astropy `Constant`s and
`Unit`s, whose type is not exactly `Quantity`) a newline followed by
`str(Ret.si)` — the full description. -/
def siOut (m : PyRat) (d : Dim) (k : VKind) : Out :=
  match k with
  | .plain => .str (fmtG m ++ dimStrSI d)
  | .constant desc => .str ("\n" ++ desc)
  | .unit n => .str ("\n" ++ n)

/-- The display section: classify `Ret` by type tag.  `int` results pass
through unchanged (both columns); other numbers go through `F_FMT`; a
dimensioned result renders SI, then tries `Ret.cgs` inside `try/except`,
falling back to `textwrap.fill(str(e), 80)`.  A `str` result (possible in
calc.py through the ignored error flag) hits `Ret.si` and raises
`AttributeError` — uncaught in `calculate`. -/
def formatResult (v : Value) : Except PyError (Out × Out) :=
  match v with
  | .int n => .ok (.int n, .int n)
  | .float x => .ok (.str (fmtG x), .str (fmtG x))
  | .str _ => .error (.attributeError "\x27str\x27 object has no attribute \x27si\x27")
  | .qty m d k =>
    let si := siOut m d k
    let cgs : Out :=
      if hasCGS d then
        match k with
        | .unit _ => .unitObj (cgsMag m d) d
        | _ => .str (fmtG (cgsMag m d) ++ dimStrCGS d)
      else .str (fill80 (cgsFailMsg k))
    .ok (si, cgs)

/-! ## Unit resolution for `convert` -/

structure UnitT where
  scale : PyRat
  udim : Dim
  disp : String
deriving DecidableEq, Repr

/-- astropy's own unit-string registry, used by `quant.to(unit_name)`
when the name is not in `user_units`; a representative subset. -/
def astroUnitTable : List (List Char × UnitT) := [
  ("m".data, ⟨1, dimL, "m"⟩),
  ("cm".data, ⟨1 / 100, dimL, "cm"⟩),
  ("mm".data, ⟨1 / 1000, dimL, "mm"⟩),
  ("km".data, ⟨1000, dimL, "km"⟩),
  ("nm".data, ⟨1 / 10 ^ 9, dimL, "nm"⟩),
  ("s".data, ⟨1, dimT, "s"⟩),
  ("yr".data, ⟨31557600, dimT, "yr"⟩),
  ("kg".data, ⟨1, dimM, "kg"⟩),
  ("g".data, ⟨1 / 1000, dimM, "g"⟩),
  ("K".data, ⟨1, ⟨0, 0, 0, 0, 1, 0, 0, 0⟩, "K"⟩),
  ("Hz".data, ⟨1, ⟨0, 0, -1, 0, 0, 0, 0, 0⟩, "Hz"⟩),
  ("J".data, ⟨1, dimJ, "J"⟩),
  ("erg".data, ⟨1 / 10 ^ 7, dimJ, "erg"⟩),
  ("eV".data, ⟨(1602176634 : PyRat) / 10 ^ 28, dimJ, "eV"⟩),
  ("W".data, ⟨1, ⟨2, 1, -3, 0, 0, 0, 0, 0⟩, "W"⟩),
  ("deg".data, ⟨piRat / 180, dimAng, "deg"⟩),
  ("rad".data, ⟨1, dimAng, "rad"⟩),
  ("arcsec".data, ⟨piRat / 648000, dimAng, "arcsec"⟩)]

def lookupUnitName (k : List Char) : List (List Char × UnitT) → Option UnitT
  | [] => none
  | (k₂, u) :: t => if k = k₂ then some u else lookupUnitName k t

def unitDivChain (t : UnitT) : List (List Char) → Except PyError UnitT
  | [] => .ok t
  | p :: ps =>
    match lookupUnitName p astroUnitTable with
    | none => .error (.valueError ("\x27" ++ String.mk p ++ "\x27 did not parse as unit"))
    | some u => unitDivChain ⟨t.scale / u.scale, t.udim.sub u.udim, t.disp ++ " / " ++ u.disp⟩ ps

/-- astropy's parsing of a unit string such as `km/s` as used through
`quant.to(unit_name)`: slash-separated unit names, folded by division. -/
def parseUnitStr (uname : String) : Except PyError UnitT :=
  match (pySplitC '/' (pyStrip uname.data)).map pyStrip with
  | [] => .error (.valueError "empty unit")
  | p :: ps =>
    match lookupUnitName p astroUnitTable with
    | none => .error (.valueError ("\x27" ++ String.mk p ++ "\x27 did not parse as unit"))
    | some t => unitDivChain t ps

/-- Rendering of a value inside an error message (as Python interpolates
the object into the exception text). -/
def valueRepr : Value → String
  | .int n => toString n
  | .float x => fmtG x
  | .qty m d _ => fmtG m ++ dimStrSI d
  | .str s => s

/-- A namespace value used as a conversion target: the `user_units`
branch passes the namespace entry itself to `.to`, whose `Unit(...)`
constructor accepts only `UnitBase` / `CompositeUnit` objects and plain
numbers (a number becomes a dimensionless scaled unit) — a `Quantity`
or `Constant` raises `TypeError: ... can not be converted to a Unit`,
which neither `convert` implementation catches.  In the registry this
hits exactly `Msun` (the `M_sun` `Constant`) and `pc2`/`pc3` (squares of
the `pc` constant, hence plain `Quantity`s). -/
def valueAsUnit (v : Value) (uname : String) : Except PyError UnitT :=
  match v with
  | .int n => .ok ⟨qInt n, Dim.zero, uname⟩
  | .float x => .ok ⟨x, Dim.zero, uname⟩
  | .qty m d (.unit _) => .ok ⟨m, d, uname⟩
  | v₂ => .error (.typeError (valueRepr v₂ ++ " can not be converted to a Unit"))

/-- Target-unit resolution shared by both `convert` implementations:
names in `user_units` resolve through the namespace (calc.py:
`eval(userunit)` against module globals, raising `NameError` when
missing, e.g. for `deg`; `AstroCalculator`: `self.local_namespace[...]`,
raising `KeyError`); all other names go to astropy's unit-string
parser. -/
def resolveUnitWith (ns : NS) (missing : String → PyError) (uname : String) :
    Except PyError UnitT :=
  if user_units.contains uname then
    match lookupNS uname.data ns with
    | none => .error (missing uname)
    | some v => valueAsUnit v uname
  else parseUnitStr uname

/-- `quant.to(target)` plus the result formatting of the two `convert`
functions: succeeds iff the dimension vectors agree; a converted
`Quantity` prints as value-space-unit, while a bare `Unit` converts to
the bare scale factor (`Unit.to` returns a number). -/
def convertCore (ns : NS) (missing : String → PyError) (q : Value) (uname : String) :
    Except PyError String :=
  match resolveUnitWith ns missing uname with
  | .error e => .error e
  | .ok t =>
    match q with
    | .qty m d k =>
      if d = t.udim then
        match k with
        | .unit _ => .ok (fmtG (m / t.scale))
        | _ => .ok (fmtG (m / t.scale) ++ " " ++ t.disp)
      else .error (.unitConversionError ("\x27" ++ t.disp ++ "\x27 and the quantity " ++ nconvMsg))
    | .str _ => .error (.attributeError "\x27str\x27 object has no attribute \x27to\x27")
    | _ => .error (.attributeError "no attribute \x27to\x27")

/-- What a `convert` call returns: `None` (empty unit), the untouched
`int`, or a formatted string. -/
inductive ConvRes where
  | int : ℤ → ConvRes
  | str : String → ConvRes
deriving DecidableEq, Repr

/-! ## `calc.py` (module `calc.calc`) -/

namespace Calc

structure PyOut where
  err : ℕ
  parsed : String
  raw : Value
  rsi : Out
  rcgs : Out
deriving DecidableEq, Repr

/-- calc.py `parse_and_eval` (lines 105-136): parse, reprint, evaluate
against the stuffed locals and the module globals; failures are returned
as `(1, text, message)` — never raised. -/
def parse_and_eval (expr : List Char) (vars : NS) : ℕ × String × Value :=
  match parseE expr with
  | .error msg => (1, String.mk expr, .str msg)
  | .ok e =>
    match evalExpr e (vars ++ initNS) with
    | .error msg => (1, printExpr e, .str msg)
    | .ok v => (0, printExpr e, v)

/-- One iteration of the assignment loop in calc.py `calculate`
(lines 159-180), for a non-final line.  Note the faithful bug: the error
flag returned by `parse_and_eval` is discarded and the result — the
error-message string on failure — is committed to `local_vars`. -/
def assignStep (vars : NS) (line : List Char) : Except PyError NS :=
  let line := pyStrip line
  let items := pySplitC '=' line
  if items.length > 2 then
    .error (.evalError "Multiple equal signs found in variable assignment")
  else
    match items with
    | [_] => .ok vars
    | [v, value] =>
      let var := pyStrip v
      if hasChar ' ' var then .error (.evalError "Variable should not have space in it")
      else
        let r := parse_and_eval value vars
        .ok ((var, r.2.2) :: vars)
    | _ => .ok vars

def processAssigns : List (List Char) → NS → Except PyError NS
  | [], vars => .ok vars
  | l :: ls, vars =>
    match assignStep vars l with
    | .error e => .error e
    | .ok vars₂ => processAssigns ls vars₂

/-- calc.py `calculate` (lines 139-219).  Empty input short-circuits;
otherwise strip, run the assignment loop over all but the last
comma-separated line (only when a comma is present), evaluate the last
line, and either return the tagged error tuple (`err = 1`) or format.
`EvalError` for malformed assignments and any formatting exception
propagate as raises. -/
def calculate (inp : String) : Except PyError PyOut :=
  if inp.data = [] then .ok ⟨0, "", .str "", .str "", .str ""⟩
  else
    let cs := pyStrip inp.data
    let go : Except PyError (NS × List Char) :=
      if hasChar ',' cs then
        let lines := pySplitC ',' cs
        match processAssigns lines.dropLast [] with
        | .error e => .error e
        | .ok vars => .ok (vars, lines.getLastD [])
      else .ok ([], cs)
    match go with
    | .error e => .error e
    | .ok (vars, lastCs) =>
      let r := parse_and_eval lastCs vars
      if r.1 = 1 then .ok ⟨1, r.2.1, r.2.2, .str "", .str ""⟩
      else
        match formatResult r.2.2 with
        | .error e => .error e
        | .ok (si, cgs) => .ok ⟨0, r.2.1, r.2.2, si, cgs⟩

/-- calc.py `convert` (lines 222-242): `None` for an empty unit, scalars
pass through (`int` unchanged, floats formatted), quantities resolve the
target and convert; `UnitConversionError` / `NameError` propagate. -/
def convert (quant : Value) (uname : String) : Except PyError (Option ConvRes) :=
  if uname = "" then .ok none
  else
    match quant with
    | .int n => .ok (some (.int n))
    | .float x => .ok (some (.str (fmtG x)))
    | q =>
      match convertCore initNS
          (fun u => .nameError ("name \x27" ++ u ++ "\x27 is not defined")) q uname with
      | .error e => .error e
      | .ok s => .ok (some (.str s))

end Calc

/-! ## `__init__.py` (`AstroCalculator`) -/

inductive AstroRes where
  | empty : AstroRes
  | res : String → Value → Out → Out → Option String → AstroRes
deriving DecidableEq, Repr

namespace AstroCalculator

/-- `AstroCalculator.parse_and_eval` via `simple_eval` (lines 109-145,
299-316): any parse or evaluation failure is re-raised as `EvalError`.
The fast Python-`eval` path of `simple_eval` agrees with the sympy path
on every input where it succeeds (it evaluates the same expression
against the same namespace), so the model evaluates once. -/
def parse_and_eval (expr : List Char) (ns : NS) : Except PyError (String × Value) :=
  match parseE expr with
  | .error m => .error (.evalError m)
  | .ok e =>
    match evalExpr e ns with
    | .error m => .error (.evalError m)
    | .ok v => .ok (printExpr e, v)

/-- One loop iteration of `AstroCalculator.calculate` (lines 350-375):
lines without `=` (and empty lines) are skipped; a line with more than
one `=` raises; a valid assignment evaluates its right-hand side against
the *instance* namespace and commits the result into that same
namespace. -/
def astroStep (ns : NS) (line : List Char) : Except PyError NS :=
  let line := pyStrip line
  if line = [] || !hasChar '=' line then .ok ns
  else
    let items := pySplitC '=' line
    if items.length > 2 then
      .error (.evalError "Multiple equal signs found in variable assignment")
    else
      match items with
      | [v, value] =>
        let var := pyStrip v
        if hasChar ' ' var then .error (.evalError "Variable should not have space in it")
        else
          match parse_and_eval value ns with
          | .error e => .error e
          | .ok r => .ok ((var, r.2) :: ns)
      | _ => .ok ns

/-- The assignment loop over all statement lines; on the first raising
statement the loop stops, the exception propagates, and the namespace
keeps exactly the commits made so far (it is the mutable
`self.local_namespace`). -/
def assignLoop : List (List Char) → NS → NS × Option PyError
  | [], ns => (ns, none)
  | l :: ls, ns =>
    match astroStep ns l with
    | .error e => (ns, some e)
    | .ok ns₂ => assignLoop ls ns₂

/-- `AstroCalculator.calculate` (lines 318-414).  Blank input returns the
all-`None` tuple; a ` in ` occurrence splits the whole input and, only
when exactly two parts result, strips the clause and records the target
unit; every line (including the last) runs through the assignment loop;
the terminal expression is the text left of the first `=` of the last
line; the result is formatted as in calc.py.  The returned namespace is
the instance's `self.local_namespace`, mutated by the commits. -/
def calculate (ns : NS) (inp : String) : NS × Except PyError AstroRes :=
  let cs₀ := pyStrip inp.data
  if cs₀ = [] then (ns, .ok .empty)
  else
    let st :=
      if hasSubstr inSep cs₀ then
        let parts := pySplitS inSep cs₀
        if parts.length = 2 then
          (pyStrip (parts.headD []), some (String.mk (pyStrip (parts.getLastD []))))
        else (cs₀, (none : Option String))
      else (cs₀, none)
    let lines := pySplitC ',' st.1
    match assignLoop lines ns with
    | (ns₂, some e) => (ns₂, .error e)
    | (ns₂, none) =>
      let lastL := pyStrip (lines.getLastD [])
      let expToEval := pyStrip ((pySplitC '=' lastL).headD [])
      match parse_and_eval expToEval ns₂ with
      | .error e => (ns₂, .error e)
      | .ok r =>
        match formatResult r.2 with
        | .error e => (ns₂, .error e)
        | .ok (si, cgs) => (ns₂, .ok (.res r.1 r.2 si cgs st.2))

/-- `AstroCalculator.convert` (lines 416-455): like calc.py `convert`,
but `AttributeError` and `UnitConversionError` from the conversion are
re-raised as `UnitConversionError`; anything else (e.g. the `KeyError`
for `deg`) propagates unchanged. -/
def convert (ns : NS) (quant : Value) (uname : String) : Except PyError (Option ConvRes) :=
  if uname = "" then .ok none
  else
    match quant with
    | .int n => .ok (some (.int n))
    | .float x => .ok (some (.str (fmtG x)))
    | q =>
      match convertCore ns (fun u => .keyError u) q uname with
      | .ok s => .ok (some (.str s))
      | .error (.attributeError m) => .error (.unitConversionError m)
      | .error (.unitConversionError m) => .error (.unitConversionError m)
      | .error e => .error e

end AstroCalculator

/-! ## `execute_calculation` (`__init__.py` lines 484-520) -/

def replaceNlSemi : List Char → List Char
  | [] => []
  | c :: cs =>
    if c = '\n' then ',' :: ' ' :: replaceNlSemi cs
    else if c = ';' then ',' :: replaceNlSemi cs
    else c :: replaceNlSemi cs

/-- `parse_input`: newline becomes comma-space, semicolon becomes comma. -/
def parse_input (inp : String) : String := String.mk (replaceNlSemi inp.data)

def outStr : Out → String
  | .int n => toString n
  | .str s => s
  | .unitObj m d => fmtG m ++ dimStrCGS d

def convStr : ConvRes → String
  | .int n => toString n
  | .str s => s

/-- `execute_calculation`: normalise the input, run the cached
calculator's `calculate` (raises propagate — there is no handler around
it), print the three result lines, and if a target unit was recorded try
the conversion, appending either the converted line or — only for a
`UnitConversionError` — an error line; any other exception from the
conversion is silently swallowed by the `isinstance` check. -/
def execute_calculation (ns : NS) (inp : String) : NS × Except PyError String :=
  match AstroCalculator.calculate ns (parse_input inp) with
  | (ns₂, .error e) => (ns₂, .error e)
  | (ns₂, .ok .empty) =>
    (ns₂, .ok "Parsed input = None\nResult (SI)  = None\nResult (cgs) = None")
  | (ns₂, .ok (.res p raw si cgs tgt)) =>
    let base := "Parsed input = " ++ p ++ "\nResult (SI)  = " ++ outStr si ++
      "\nResult (cgs) = " ++ outStr cgs
    match tgt with
    | none => (ns₂, .ok base)
    | some t =>
      if t = "" then (ns₂, .ok base)
      else
        match AstroCalculator.convert ns₂ raw t with
        | .ok none => (ns₂, .ok base)
        | .ok (some c) => (ns₂, .ok (base ++ "\nConverted to " ++ t ++ " = " ++ convStr c))
        | .error (.unitConversionError m) =>
          (ns₂, .ok (base ++ "\nError converting to " ++ t ++ ": " ++ m))
        | .error _ => (ns₂, .ok base)

/-! ## Helper definitions for the claim statements -/

instance {ε α : Type} [DecidableEq ε] [DecidableEq α] : DecidableEq (Except ε α) := fun x y =>
  match x, y with
  | .ok a, .ok b =>
    if h : a = b then .isTrue (by rw [h]) else .isFalse (fun he => by cases he; exact h rfl)
  | .error a, .error b =>
    if h : a = b then .isTrue (by rw [h]) else .isFalse (fun he => by cases he; exact h rfl)
  | .ok _, .error _ => .isFalse (fun he => by cases he)
  | .error _, .ok _ => .isFalse (fun he => by cases he)

def AstroRes.rawOf : AstroRes → Option Value
  | .empty => none
  | .res _ r _ _ _ => some r

def AstroRes.siOf : AstroRes → Option Out
  | .empty => none
  | .res _ _ si _ _ => some si

def AstroRes.cgsOf : AstroRes → Option Out
  | .empty => none
  | .res _ _ _ cgs _ => some cgs

/-- Did a `convert` call raise `UnitConversionError`? -/
def isUCEb (x : Except PyError (Option ConvRes)) : Bool :=
  match x with
  | .error (.unitConversionError _) => true
  | _ => false

/-- Did a `convert` call return normally? -/
def isOkb (x : Except PyError (Option ConvRes)) : Bool :=
  match x with
  | .ok _ => true
  | _ => false

/-- Target-unit resolution stripped of the missing-name error (which
differs between the two `convert` implementations); `some` exactly when
the name is registered — bound in the namespace if it is a user unit,
known to astropy's unit-string parser otherwise. -/
def resolveUnit (ns : NS) (u : String) : Option UnitT :=
  match resolveUnitWith ns (fun s => .valueError s) u with
  | .ok t => some t
  | .error _ => none

/-- Python `str(n)` for an integer: decimal digits with a possible leading
minus sign (fuel-based digit extraction, kernel-computable). -/
def digitC : ℕ → Char
  | 0 => '0'
  | 1 => '1'
  | 2 => '2'
  | 3 => '3'
  | 4 => '4'
  | 5 => '5'
  | 6 => '6'
  | 7 => '7'
  | 8 => '8'
  | _ => '9'

def digitsGo : ℕ → ℕ → List Char
  | 0, _ => []
  | f + 1, m => if m < 10 then [digitC m] else digitsGo f (m / 10) ++ [digitC (m % 10)]

def natChars (m : ℕ) : List Char := digitsGo (m + 1) m

def intChars (z : ℤ) : List Char :=
  if z < 0 then '-' :: natChars z.natAbs else natChars z.natAbs

def intToStr (z : ℤ) : String := String.mk (intChars z)

/-- The accumulator step of the lexer on one decimal digit. -/
def accDig (a : ℕ) (c : Char) : ℕ := 10 * a + digVal c

/-- Head character of a Python identifier — and explicitly not a digit,
which is how the lexer dispatches. -/
def isStartC (c : Char) : Bool := (isAlphaC c || c = '_') && !isDigitC c

/-- A plain identifier as the claims need it: nonempty, identifier-shaped,
neither the keyword `in` nor a registered function name. -/
def isIdentOk : List Char → Bool
  | [] => false
  | c :: cs => isStartC c && cs.all isWordC && !((c :: cs) == inWord) && !(funcNames.contains (c :: cs))

/-! ## Lemmas about the Python string models -/

theorem dropWhile_eq_self_of_all {p : Char → Bool} {cs : List Char}
    (h : ∀ c ∈ cs, p c = false) : cs.dropWhile p = cs := by
  cases cs with
  | nil => rfl
  | cons c t => simp [List.dropWhile, h c (by simp)]

theorem pyStrip_eq_self {cs : List Char} (h : ∀ c ∈ cs, isSpaceC c = false) :
    pyStrip cs = cs := by
  unfold pyStrip
  rw [dropWhile_eq_self_of_all h, dropWhile_eq_self_of_all, List.reverse_reverse]
  intro c hc
  exact h c (by simpa using hc)

theorem hasChar_eq_false {x : Char} {cs : List Char} (h : ∀ c ∈ cs, ¬ c = x) :
    hasChar x cs = false := by
  induction cs with
  | nil => rfl
  | cons c t ih =>
    simp only [hasChar, Bool.or_eq_false_iff]
    exact ⟨by simpa using h c (by simp), ih (fun c hc => h c (by simp [hc]))⟩

theorem pySplitC_eq_single {sep : Char} {cs : List Char} (h : hasChar sep cs = false) :
    pySplitC sep cs = [cs] := by
  induction cs with
  | nil => rfl
  | cons c t ih =>
    simp only [hasChar, Bool.or_eq_false_iff] at h
    simp only [pySplitC]
    rw [if_neg (by simpa using h.1), ih h.2]
    rfl

theorem hasChar_of_pySplitC_two {sep : Char} {cs a b : List Char} {t : List (List Char)}
    (h : pySplitC sep cs = a :: b :: t) : hasChar sep cs = true := by
  by_contra hn
  rw [pySplitC_eq_single (by simpa using hn)] at h
  simp at h

theorem hasSubstr_inSep_false {cs : List Char} (h : ∀ c ∈ cs, ¬ c = ' ') :
    hasSubstr inSep cs = false := by
  induction cs with
  | nil => rfl
  | cons c rest ih =>
    simp only [hasSubstr, Bool.or_eq_false_iff]
    refine ⟨?_, ih (fun x hx => h x (by simp [hx]))⟩
    have hc : ¬ (' ' = c) := fun hc => h c (by simp) hc.symm
    simp [inSep, isPrefixL, hc]

theorem getLastD_append_single (pre : List (List Char)) (x : List Char) (d : List Char) :
    (pre ++ [x]).getLastD d = x := by
  induction pre with
  | nil => rfl
  | cons p t ih =>
    cases t with
    | nil => rfl
    | cons q r => simpa using ih

/-! ## Lemmas about lexing decimal integers (claim C9) -/

theorem digitC_isDigit (m : ℕ) : isDigitC (digitC m) = true := by
  unfold digitC
  split <;> decide

theorem digVal_digitC {m : ℕ} (h : m < 10) : digVal (digitC m) = m := by
  interval_cases m <;> decide

theorem digitC_not_space (m : ℕ) : isSpaceC (digitC m) = false := by
  unfold digitC
  split <;> decide

theorem digitC_ne {m : ℕ} {x : Char} (hx : isDigitC x = false) : ¬ digitC m = x := by
  intro h
  rw [← h] at hx
  rw [digitC_isDigit] at hx
  cases hx

theorem digitsGo_spec : ∀ f m, m < f →
    digitsGo f m ≠ [] ∧ (∀ c ∈ digitsGo f m, isDigitC c = true) ∧
      ∀ a, List.foldl accDig a (digitsGo f m) = a * 10 ^ (digitsGo f m).length + m := by
  intro f
  induction f with
  | zero => intro m hm; omega
  | succ f ih =>
    intro m hm
    by_cases h10 : m < 10
    · refine ⟨by simp [digitsGo, h10], ?_, ?_⟩
      · intro c hc
        simp [digitsGo, h10] at hc
        rw [hc]
        exact digitC_isDigit m
      · intro a
        simp [digitsGo, h10, accDig, digVal_digitC h10]
        ring
    · have hdiv : m / 10 < f := by omega
      obtain ⟨hne, hdig, hfold⟩ := ih (m / 10) hdiv
      refine ⟨by simp [digitsGo, h10], ?_, ?_⟩
      · intro c hc
        simp only [digitsGo, if_neg h10, List.mem_append, List.mem_singleton] at hc
        rcases hc with hc | hc
        · exact hdig c hc
        · rw [hc]; exact digitC_isDigit _
      · intro a
        simp only [digitsGo, if_neg h10, List.foldl_append, List.length_append,
          List.foldl_cons, List.foldl_nil, List.length_cons, List.length_nil]
        rw [hfold a]
        simp only [accDig, digVal_digitC (by omega : m % 10 < 10)]
        rw [pow_succ]
        have : 10 * (m / 10) + m % 10 = m := by omega
        ring_nf
        omega

theorem natChars_ne_nil (m : ℕ) : natChars m ≠ [] :=
  (digitsGo_spec (m + 1) m (by omega)).1

theorem natChars_digits (m : ℕ) : ∀ c ∈ natChars m, isDigitC c = true :=
  (digitsGo_spec (m + 1) m (by omega)).2.1

theorem natChars_foldl (m : ℕ) (a : ℕ) :
    List.foldl accDig a (natChars m) = a * 10 ^ (natChars m).length + m :=
  (digitsGo_spec (m + 1) m (by omega)).2.2 a

/-- A run of decimal digits extends the in-number lexer state by folding
the digits into the accumulator. -/
theorem lexFold_digit_run {ds : List Char} (h : ∀ c ∈ ds, isDigitC c = true) :
    ∀ (rest : List Char) (a : ℕ),
      lexFold (ds ++ rest) (.innum a) = lexFold rest (.innum (List.foldl accDig a ds)) := by
  induction ds with
  | nil => intro rest a; rfl
  | cons c t ih =>
    intro rest a
    have hc : isDigitC c = true := h c (by simp)
    have ht : ∀ x ∈ t, isDigitC x = true := fun x hx => h x (by simp [hx])
    simp only [List.cons_append, lexFold, lexStep, hc, if_pos, List.append_eq]
    rw [ih ht rest (10 * a + digVal c)]
    simp only [List.foldl_cons, accDig]
    cases lexFold rest (LexSt.innum (List.foldl accDig (10 * a + digVal c) t)) <;> rfl

theorem lexFold_digits_from_idle {ds : List Char} (h : ∀ c ∈ ds, isDigitC c = true)
    (hne : ds ≠ []) :
    lexFold ds .idle = .ok [.tint ((List.foldl accDig 0 ds : ℕ) : ℤ)] := by
  cases ds with
  | nil => cases hne rfl
  | cons c t =>
    have hc : isDigitC c = true := h c (by simp)
    have ht : ∀ x ∈ t, isDigitC x = true := fun x hx => h x (by simp [hx])
    simp only [lexFold, lexStep, hc, if_pos]
    have hrun := lexFold_digit_run ht [] (digVal c)
    rw [List.append_nil] at hrun
    rw [hrun]
    simp only [lexFold, flushSt, List.foldl_cons, accDig, Except.map]
    norm_num

theorem lexAll_natChars (m : ℕ) : lexAll (natChars m) = .ok [.tint (m : ℤ)] := by
  unfold lexAll
  rw [lexFold_digits_from_idle (natChars_digits m) (natChars_ne_nil m)]
  rw [natChars_foldl m 0]
  simp [mergeStars, Except.map]

theorem lexAll_neg_natChars (m : ℕ) :
    lexAll ('-' :: natChars m) = .ok [.minus, .tint (m : ℤ)] := by
  unfold lexAll
  have hs : lexStep .idle '-' = .ok ([Tok.minus], .idle) := rfl
  have h1 : lexFold ('-' :: natChars m) .idle =
      (lexFold (natChars m) .idle).map (fun r => [Tok.minus] ++ r) := by
    simp only [lexFold, hs]
  rw [h1, lexFold_digits_from_idle (natChars_digits m) (natChars_ne_nil m),
    natChars_foldl m 0]
  simp [mergeStars, Except.map]

theorem parseToks_single_int (z : ℤ) : parseToks [.tint z] = .ok (.intLit z) := rfl

theorem parseToks_neg_int (z : ℤ) :
    parseToks [.minus, .tint z] = .ok (.neg (.intLit z)) := rfl

/-- Parsing and evaluating the decimal text of an integer yields that
integer, in any namespace. -/
theorem parse_eval_intChars (z : ℤ) (ns : NS) :
    ∃ e, parseE (intChars z) = .ok e ∧ evalExpr e ns = .ok (.int z) := by
  by_cases hz : z < 0
  · refine ⟨.neg (.intLit (z.natAbs : ℤ)), ?_, ?_⟩
    · unfold intChars parseE
      rw [if_pos hz, lexAll_neg_natChars]
      simp [parseToks_neg_int]
    · simp only [evalExpr, negVal]
      have : -(z.natAbs : ℤ) = z := by omega
      rw [this]
  · refine ⟨.intLit z, ?_, rfl⟩
    unfold intChars parseE
    rw [if_neg hz]
    have : (z.natAbs : ℤ) = z := by omega
    rw [← this, lexAll_natChars]
    simp [parseToks_single_int]

theorem digit_ne {c x : Char} (hd : isDigitC c = true) (hx : isDigitC x = false) :
    ¬ c = x := by
  intro h
  rw [h, hx] at hd
  cases hd

theorem digit_not_space {c : Char} (hd : isDigitC c = true) : isSpaceC c = false := by
  have h1 : ¬ c = ' ' := digit_ne hd (by decide)
  have h2 : ¬ c = '\n' := digit_ne hd (by decide)
  have h3 : ¬ c = '\t' := digit_ne hd (by decide)
  have h4 : ¬ c = '\r' := digit_ne hd (by decide)
  simp [isSpaceC, h1, h2, h3, h4]

theorem intChars_ne_nil (z : ℤ) : intChars z ≠ [] := by
  unfold intChars
  split
  · simp
  · exact natChars_ne_nil _

theorem intChars_no (z : ℤ) {x : Char} (hx : isDigitC x = false) (hm : ¬ '-' = x) :
    ∀ c ∈ intChars z, ¬ c = x := by
  intro c hc
  unfold intChars at hc
  split at hc
  · rcases List.mem_cons.mp hc with rfl | hc
    · exact hm
    · exact digit_ne (natChars_digits _ c hc) hx
  · exact digit_ne (natChars_digits _ c hc) hx

theorem intChars_not_space (z : ℤ) : ∀ c ∈ intChars z, isSpaceC c = false := by
  intro c hc
  unfold intChars at hc
  split at hc
  · rcases List.mem_cons.mp hc with rfl | hc
    · decide
    · exact digit_not_space (natChars_digits _ c hc)
  · exact digit_not_space (natChars_digits _ c hc)

theorem data_mk (l : List Char) : (String.mk l).data = l := rfl

theorem calc_pe_int (z : ℤ) (vars : NS) :
    ∃ p, Calc.parse_and_eval (intChars z) vars = (0, p, .int z) := by
  obtain ⟨e, hpe, hev⟩ := parse_eval_intChars z (vars ++ initNS)
  refine ⟨printExpr e, ?_⟩
  unfold Calc.parse_and_eval
  rw [hpe]
  simp [hev]

theorem astro_pe_int (z : ℤ) (ns : NS) :
    ∃ p, AstroCalculator.parse_and_eval (intChars z) ns = .ok (p, .int z) := by
  obtain ⟨e, hpe, hev⟩ := parse_eval_intChars z ns
  refine ⟨printExpr e, ?_⟩
  unfold AstroCalculator.parse_and_eval
  rw [hpe]
  simp [hev]

theorem intChars_facts (z : ℤ) :
    pyStrip (intChars z) = intChars z ∧ hasChar ',' (intChars z) = false ∧
      hasChar '=' (intChars z) = false ∧ hasSubstr inSep (intChars z) = false := by
  refine ⟨pyStrip_eq_self (intChars_not_space z), ?_, ?_, ?_⟩
  · exact hasChar_eq_false (intChars_no z (by decide) (by decide))
  · exact hasChar_eq_false (intChars_no z (by decide) (by decide))
  · exact hasSubstr_inSep_false (intChars_no z (by decide) (by decide))

theorem c9_calc_side (z : ℤ) :
    (Calc.calculate (intToStr z)).map (fun r => (r.err, r.raw, r.rsi, r.rcgs)) =
      .ok (0, .int z, .int z, .int z) := by
  obtain ⟨hstrip, hcomma, heq, hin⟩ := intChars_facts z
  have hne := intChars_ne_nil z
  obtain ⟨p, hpe⟩ := calc_pe_int z []
  unfold Calc.calculate
  simp only [intToStr, data_mk, if_neg hne, hstrip, hcomma, Bool.false_eq_true, if_false, hpe]
  simp [formatResult, Except.map]

theorem c9_astro_side (z : ℤ) :
    (AstroCalculator.calculate initNS (intToStr z)).1 = initNS ∧
    ((AstroCalculator.calculate initNS (intToStr z)).2).map
        (fun r => (r.rawOf, r.siOf, r.cgsOf)) =
      .ok (some (.int z), some (.int z), some (.int z)) := by
  obtain ⟨hstrip, hcomma, heq, hin⟩ := intChars_facts z
  have hne := intChars_ne_nil z
  obtain ⟨p, hpe⟩ := astro_pe_int z initNS
  have hstep : AstroCalculator.astroStep initNS (intChars z) = .ok initNS := by
    unfold AstroCalculator.astroStep
    simp [hstrip, heq]
  have hcalc : AstroCalculator.calculate initNS (intToStr z) =
      (initNS, .ok (.res p (.int z) (.int z) (.int z) none)) := by
    unfold AstroCalculator.calculate
    simp only [intToStr, data_mk, hstrip, if_neg hne, hin, Bool.false_eq_true, if_false,
      hcomma, pySplitC_eq_single hcomma]
    simp only [AstroCalculator.assignLoop, hstep]
    simp only [List.getLastD, hstrip, pySplitC_eq_single heq, List.headD, hpe]
    simp [hstrip, pySplitC_eq_single heq, hpe, formatResult]
  rw [hcalc]
  exact ⟨rfl, by simp [AstroRes.rawOf, AstroRes.siOf, AstroRes.cgsOf, Except.map]⟩


/-- Claim C9: for every dimensionless integer `n`, evaluating the input
`str(n)` returns SI and CGS renderings that are both the literal integer
`n` itself (the `int` object, not a formatted string, hence no unit
suffix and no pass through the significant-digit float formatter), in
both `calc.calculate` and `AstroCalculator.calculate`; the latter leaves
its namespace untouched. -/
theorem claim_C9_integer_rendering (z : ℤ) :
    (Calc.calculate (intToStr z)).map (fun r => (r.err, r.raw, r.rsi, r.rcgs)) =
      .ok (0, .int z, .int z, .int z) ∧
    (AstroCalculator.calculate initNS (intToStr z)).1 = initNS ∧
    ((AstroCalculator.calculate initNS (intToStr z)).2).map
        (fun r => (r.rawOf, r.siOf, r.cgsOf)) =
      .ok (some (.int z), some (.int z), some (.int z)) :=
  ⟨c9_calc_side z, (c9_astro_side z).1, (c9_astro_side z).2⟩

/-- Claim C1, counterexample: the claim asserts that
`evaluate_line("a = 2, b = c * 3, b")` fails with `NameError` because `c`
is unbound — but `c` is a *registered global constant* (the speed of
light, in `conList` / `con_list`), so both implementations evaluate the
input successfully to the dimensioned quantity `3 c` (899377374 m/s);
no error of any kind is produced. -/
theorem claim_C1_counterexample :
    Calc.calculate "a = 2, b = c * 3, b" =
      .ok ⟨0, "b", .qty (qInt 899377374) dimVel .plain,
        .str "899377374 m^1 s^-1", .str "89937737400 cm^1 s^-1"⟩ ∧
    (AstroCalculator.calculate initNS "a = 2, b = c * 3, b").2 =
      .ok (.res "b" (.qty (qInt 899377374) dimVel .plain)
        (.str "899377374 m^1 s^-1") (.str "89937737400 cm^1 s^-1") none) := by
  constructor <;> decide

/-- Claim C1, amended: assignments are evaluated strictly in order, each
right-hand side against the namespace holding all prior assignments, so
`"a = 2, b = a * 3, b"` yields terminal value `6` in both
implementations.  For a right-hand side referencing a *genuinely* unbound
name (`qq`; the claim's `c` is the registered speed-of-light constant),
`AstroCalculator.calculate` raises `EvalError` carrying the `NameError`
message, while `calc.calculate` discards the error flag of
`parse_and_eval`, binds the `NameError` message string as the value of
`b`, and the terminal lookup of `b` then raises `AttributeError` inside
formatting. -/
theorem claim_C1_assignment_ordering :
    Calc.calculate "a = 2, b = a * 3, b" = .ok ⟨0, "b", .int 6, .int 6, .int 6⟩ ∧
    (AstroCalculator.calculate initNS "a = 2, b = a * 3, b").2 =
      .ok (.res "b" (.int 6) (.int 6) (.int 6) none) ∧
    (AstroCalculator.calculate initNS "a = 2, b = qq * 3, b").2 =
      .error (.evalError "name \x27qq\x27 is not defined") ∧
    Calc.calculate "a = 2, b = qq * 3, b" =
      .error (.attributeError "\x27str\x27 object has no attribute \x27si\x27") := by
  refine ⟨by decide, by decide, by decide, by decide⟩

/-- Claim C2, counterexample: `calc.calculate` is a public entry point,
and on the input `"a = b = 2, a"` it raises `EvalError` — an exception
propagating to the hosting caller — rather than returning a tagged
error value. -/
theorem claim_C2_counterexample :
    Calc.calculate "a = b = 2, a" =
      .error (.evalError "Multiple equal signs found in variable assignment") := by
  decide

/-- Claim C2, amended: a failure in the terminal expression is returned
by `calc.calculate` as a tagged error value (`err = 1`, no exception),
but malformed assignments raise `EvalError` from both `calculate`
implementations, and `AstroCalculator.convert` raises
`UnitConversionError` on a dimension mismatch; the interactive REPL
loops catch these exceptions, so the raises are catchable conditions,
not process aborts — but the entry points themselves do raise. -/
theorem claim_C2_raising_entry_points :
    Calc.calculate "zzz" =
      .ok ⟨1, "zzz", .str "name \x27zzz\x27 is not defined", .str "", .str ""⟩ ∧
    Calc.calculate "a = b = 2, a" =
      .error (.evalError "Multiple equal signs found in variable assignment") ∧
    (AstroCalculator.calculate initNS "a = b = 2, a").2 =
      .error (.evalError "Multiple equal signs found in variable assignment") ∧
    AstroCalculator.convert initNS (.qty 1 dimL .plain) "s" =
      .error (.unitConversionError "\x27s\x27 and the quantity are not convertible") := by
  refine ⟨by decide, by decide, by decide, by decide⟩

/-- Claim C3: the code-bug evidence.  On `"a = qq, b = 2, b"` the first
statement's evaluation fails (`qq` unbound), yet `calc.calculate` does
not abort: it discards the error flag, binds the error-message string to
`a`, continues with the remaining statements, and returns a *successful*
result `2` — against both the claim and `parse_and_eval`'s own
error-flag contract.  `AstroCalculator.calculate` behaves as the claim
says: the first failing statement raises immediately and exactly the
prior commits (here none) are kept — the returned namespace is
unchanged. -/
theorem claim_C3_first_failure_abort :
    Calc.calculate "a = qq, b = 2, b" = .ok ⟨0, "b", .int 2, .int 2, .int 2⟩ ∧
    AstroCalculator.calculate initNS "a = qq, b = 2, b" =
      (initNS, .error (.evalError "name \x27qq\x27 is not defined")) := by
  constructor <;> decide

/-- Claim C4, counterexample: in the input `"a = 2 in s, 3 in s"` the
final statement carries a trailing ` in s` clause, but because ` in `
also occurs in the earlier statement the whole-input split yields three
parts, `AstroCalculator.calculate` strips nothing and records no target
unit, and evaluation then fails on the embedded `in` keyword — instead
of producing a value rendered in `s` as the claim requires. -/
theorem claim_C4_counterexample :
    AstroCalculator.calculate initNS "a = 2 in s, 3 in s" =
      (initNS, .error (.evalError "invalid syntax")) := by
  decide

/-- Claim C4, amended: when ` in ` occurs exactly once in the input (so
the whole-input split produces exactly two parts), the clause is
stripped before the terminal expression is parsed, recorded as the
requested target unit, and applied afterwards through `convert`: the
escape-velocity input evaluates with parsed text `sqrt(2*G*M/R)` (no
`in` clause), target unit `km/s`, and `execute_calculation` renders the
converted value with unit suffix `km / s`. -/
theorem claim_C4_in_clause :
    (AstroCalculator.calculate initNS
        "M = 1.4 M_sun, R = 10 km, sqrt(2 G M / R) in km/s").2 =
      .ok (.res "sqrt(2*G*M/R)" (.qty (qInt 192767473) dimVel .plain)
        (.str "192767473 m^1 s^-1") (.str "19276747300 cm^1 s^-1") (some "km/s")) ∧
    (execute_calculation initNS
        "M = 1.4 M_sun, R = 10 km, sqrt(2 G M / R) in km/s").2 =
      .ok ("Parsed input = sqrt(2*G*M/R)\nResult (SI)  = 192767473 m^1 s^-1" ++
        "\nResult (cgs) = 19276747300 cm^1 s^-1" ++
        "\nConverted to km/s = 192767473/1000 km / s") := by
  constructor <;> decide

/-- Claim C6, counterexample: an assignment made in one invocation of
`AstroCalculator.calculate` persists into an independent later
invocation on the same calculator (the cached instance that
`get_cached_calculator` shares): after evaluating `"qq = 5, qq"`, a
second invocation of `calculate` on the bare input `"qq"` still sees the
session variable and returns `5` — the shadow is not scoped to the
first statement sequence, contradicting the claimed invariant. -/
theorem claim_C6_counterexample :
    (AstroCalculator.calculate
        (AstroCalculator.calculate initNS "qq = 5, qq").1 "qq").2 =
      .ok (.res "qq" (.int 5) (.int 5) (.int 5) none) := by
  decide

/-- Claim C6, amended: `calc.calculate` builds a fresh session layer per
invocation — a session variable from one call (`qq`) is unbound in the
next call, which fails with the `NameError` message — and never writes
into the module-global registry; but `AstroCalculator.calculate` commits
assignments directly into the instance namespace shared with the
globals (`self.local_namespace[var] = result`), as witnessed by the
returned namespace carrying the new binding in front of the registry. -/
theorem claim_C6_session_scoping :
    Calc.calculate "qq = 5, qq" = .ok ⟨0, "qq", .int 5, .int 5, .int 5⟩ ∧
    Calc.calculate "qq" =
      .ok ⟨1, "qq", .str "name \x27qq\x27 is not defined", .str "", .str ""⟩ ∧
    (AstroCalculator.calculate initNS "qq = 5, qq").1 =
      ("qq".data, Value.int 5) :: initNS := by
  refine ⟨by decide, by decide, by decide⟩

/-- Claim C8, counterexample: the input `"a, b = c = 2"` contains an
assignment statement with two `=` signs, but since it is the *final*
statement, `calc.calculate` never runs the assignment validator on it:
the text goes to the expression parser and the call returns normally
with a tagged parse error (`err = 1`) — no `AssignmentError`-style
`EvalError` is raised. -/
theorem claim_C8_counterexample :
    Calc.calculate "a, b = c = 2" =
      .ok ⟨1, " b = c = 2", .str "invalid syntax", .str "", .str ""⟩ := by
  decide

/-- Claim C8, amended: a *non-final* statement with more than one `=`
raises `EvalError` ("Multiple equal signs found in variable assignment")
from `calc.calculate` — in particular on the claim's own example
`"a = b = 2, a"` — and `AstroCalculator.calculate` applies the check to
every statement including a sole or final one; but a multi-`=` final
statement in `calc.calculate` produces a tagged parse error instead. -/
theorem claim_C8_multiple_equals :
    Calc.calculate "a = b = 2, a" =
      .error (.evalError "Multiple equal signs found in variable assignment") ∧
    (AstroCalculator.calculate initNS "a = b = 2, a").2 =
      .error (.evalError "Multiple equal signs found in variable assignment") ∧
    (AstroCalculator.calculate initNS "a = b = 2").2 =
      .error (.evalError "Multiple equal signs found in variable assignment") := by
  refine ⟨by decide, by decide, by decide⟩

/-- Claim C7: for every dimensioned quantity whose dimension has no cgs
representation (electric-current exponent nonzero — astropy's `.cgs`
raises exactly there), the display section does not raise: the cgs
column is populated with the wrapped diagnostic text
(`textwrap.fill(str(e), 80)`), and the SI column holds `siOut m d k` —
the very same rendering the success path produces, so a cgs-only
failure never suppresses the SI result. -/
theorem claim_C7_cgs_diagnostic (m : PyRat) (d : Dim) (k : VKind)
    (h : hasCGS d = false) :
    formatResult (.qty m d k) = .ok (siOut m d k, .str (fill80 (cgsFailMsg k))) := by
  simp only [formatResult, h, Bool.false_eq_true, if_false]

/-- Claim C7 witness: the electron charge `e` (dimension A·s) has no cgs
representation; its SI column is the constant description and its cgs
column the diagnostic text. -/
theorem claim_C7_witness :
    hasCGS dimCharge = false ∧
    formatResult (.qty ((1602176634 : PyRat) / 10 ^ 28) dimCharge (.constant eDesc)) =
      .ok (siOut ((1602176634 : PyRat) / 10 ^ 28) dimCharge (.constant eDesc),
        .str (fill80 (cgsFailMsg (.constant eDesc)))) :=
  ⟨by decide, claim_C7_cgs_diagnostic _ _ _ (by decide)⟩

theorem resolveUnit_transfer {ns : NS} {u : String} {t : UnitT}
    (h : resolveUnit ns u = some t) (missing : String → PyError) :
    resolveUnitWith ns missing u = .ok t := by
  unfold resolveUnit at h
  cases hr : resolveUnitWith ns (fun s => .valueError s) u with
  | ok t₂ =>
    rw [hr] at h
    cases h
    unfold resolveUnitWith at hr ⊢
    cases hu : user_units.contains u with
    | true =>
      rw [hu] at hr
      simp only [if_true] at hr ⊢
      cases hl : lookupNS u.data ns with
      | none => rw [hl] at hr; cases hr
      | some v => rw [hl] at hr; exact hr
    | false =>
      rw [hu] at hr
      simp only [Bool.false_eq_true, if_false] at hr ⊢
      exact hr
  | error e => rw [hr] at h; cases h

theorem calc_convert_qty (mag : PyRat) (d : Dim) (k : VKind) (u : String)
    (t : UnitT) (hne : ¬ u = "")
    (hres : resolveUnitWith initNS
      (fun s => .nameError ("name \x27" ++ s ++ "\x27 is not defined")) u = .ok t) :
    Calc.convert (.qty mag d k) u =
      if d = t.udim then
        match k with
        | .unit _ => .ok (some (.str (fmtG (mag / t.scale))))
        | _ => .ok (some (.str (fmtG (mag / t.scale) ++ " " ++ t.disp)))
      else
        .error (.unitConversionError
          ("\x27" ++ t.disp ++ "\x27 and the quantity " ++ nconvMsg)) := by
  have hc : Calc.convert (.qty mag d k) u =
      (match convertCore initNS
          (fun s => .nameError ("name \x27" ++ s ++ "\x27 is not defined"))
          (.qty mag d k) u with
        | .error e => .error e
        | .ok s => .ok (some (.str s))) := by
    unfold Calc.convert
    rw [if_neg hne]
  rw [hc]
  unfold convertCore
  rw [hres]
  by_cases hd : d = t.udim
  · cases k <;> simp [hd]
  · simp [hd]

theorem astro_convert_qty (mag : PyRat) (d : Dim) (k : VKind) (u : String)
    (t : UnitT) (hne : ¬ u = "")
    (hres : resolveUnitWith initNS (fun s => .keyError s) u = .ok t) :
    AstroCalculator.convert initNS (.qty mag d k) u =
      if d = t.udim then
        match k with
        | .unit _ => .ok (some (.str (fmtG (mag / t.scale))))
        | _ => .ok (some (.str (fmtG (mag / t.scale) ++ " " ++ t.disp)))
      else
        .error (.unitConversionError
          ("\x27" ++ t.disp ++ "\x27 and the quantity " ++ nconvMsg)) := by
  have hc : AstroCalculator.convert initNS (.qty mag d k) u =
      (match convertCore initNS (fun s => .keyError s) (.qty mag d k) u with
        | .ok s => .ok (some (.str s))
        | .error (.attributeError m) => .error (.unitConversionError m)
        | .error (.unitConversionError m) => .error (.unitConversionError m)
        | .error e => .error e) := by
    unfold AstroCalculator.convert
    rw [if_neg hne]
  rw [hc]
  unfold convertCore
  rw [hres]
  by_cases hd : d = t.udim
  · cases k <;> simp [hd]
  · simp [hd]

/-- Claim C5, amended: for every dimensioned quantity and every
registered target unit name that the code can actually use as a
conversion target — a `user_units` name bound to a `Unit`/`CompositeUnit`
in the namespace, or a unit string known to astropy's parser (which is
what `resolveUnit ... = some t` states; the registered names `Msun`,
`pc2`, `pc3` are bound to `Constant`/`Quantity` values, for which `.to`
raises an uncaught `TypeError` instead — see the counterexample) — both
`convert` implementations fail, with `UnitConversionError` exactly, if
and only if the unit's dimension vector differs from the quantity's;
when the vectors agree the call returns the converted rendering.
Dimensionless scalars are returned as themselves formatted — the `int`
unchanged, the float through the significant-digit formatter — never
unit-converted. -/
theorem claim_C5_convert_unit_iff (mag : PyRat) (d : Dim) (k : VKind)
    (u : String) (t : UnitT) (h : resolveUnit initNS u = some t) :
    ((isUCEb (Calc.convert (.qty mag d k) u) = true ↔ ¬ d = t.udim) ∧
     (isOkb (Calc.convert (.qty mag d k) u) = true ↔ d = t.udim)) ∧
    ((isUCEb (AstroCalculator.convert initNS (.qty mag d k) u) = true ↔ ¬ d = t.udim) ∧
     (isOkb (AstroCalculator.convert initNS (.qty mag d k) u) = true ↔ d = t.udim)) ∧
    (∀ z : ℤ, Calc.convert (.int z) u = .ok (some (.int z)) ∧
      AstroCalculator.convert initNS (.int z) u = .ok (some (.int z))) ∧
    (∀ x : PyRat, Calc.convert (.float x) u = .ok (some (.str (fmtG x))) ∧
      AstroCalculator.convert initNS (.float x) u = .ok (some (.str (fmtG x)))) := by
  have hne : ¬ u = "" := by
    intro hu
    subst hu
    have hnone : resolveUnit initNS "" = none := by decide
    rw [hnone] at h
    cases h
  have hres1 := resolveUnit_transfer h
    (fun s => .nameError ("name \x27" ++ s ++ "\x27 is not defined"))
  have hres2 := resolveUnit_transfer h (fun s => .keyError s)
  refine ⟨?_, ?_, ?_, ?_⟩
  · rw [calc_convert_qty mag d k u t hne hres1]
    by_cases hd : d = t.udim
    · rw [if_pos hd]
      cases k <;> simp [isUCEb, isOkb, hd]
    · rw [if_neg hd]
      simp [isUCEb, isOkb, hd]
  · rw [astro_convert_qty mag d k u t hne hres2]
    by_cases hd : d = t.udim
    · rw [if_pos hd]
      cases k <;> simp [isUCEb, isOkb, hd]
    · rw [if_neg hd]
      simp [isUCEb, isOkb, hd]
  · intro z
    constructor
    · unfold Calc.convert
      rw [if_neg hne]
    · unfold AstroCalculator.convert
      rw [if_neg hne]
  · intro x
    constructor
    · unfold Calc.convert
      rw [if_neg hne]
    · unfold AstroCalculator.convert
      rw [if_neg hne]

/-- Claim C5 witness: `km` resolves through astropy's unit-string table
to the kilometre; a one-second quantity fails to convert to `km` with
`UnitConversionError` (dimension mismatch), while the scalar clauses
hold as stated. -/
theorem claim_C5_witness :
    resolveUnit initNS "km" = some ⟨1000, dimL, "km"⟩ ∧
    (isUCEb (Calc.convert (.qty 1 dimT .plain) "km") = true ↔
      ¬ dimT = (⟨1000, dimL, "km"⟩ : UnitT).udim) :=
  ⟨by decide, (((claim_C5_convert_unit_iff 1 dimT .plain "km" ⟨1000, dimL, "km"⟩
    (by decide)).1).1)⟩

theorem lexFold_word_run {ds : List Char} (h : ∀ c ∈ ds, isWordC c = true) :
    ∀ (rest acc : List Char),
      lexFold (ds ++ rest) (.inword acc) = lexFold rest (.inword (acc ++ ds)) := by
  induction ds with
  | nil => intro rest acc; simp
  | cons c t ih =>
    intro rest acc
    have hc : isWordC c = true := h c (by simp)
    have ht : ∀ x ∈ t, isWordC x = true := fun x hx => h x (by simp [hx])
    have hs : lexStep (.inword acc) c = .ok ([], .inword (acc ++ [c])) := by
      unfold lexStep
      cases hd : isDigitC c with
      | true => simp [hd]
      | false =>
        have halpha : (isAlphaC c || decide (c = '_')) = true := by
          unfold isWordC at hc
          rw [hd] at hc
          simpa using hc
        simp [hd, halpha]
    simp only [List.cons_append, lexFold, hs, List.append_eq]
    rw [ih ht rest (acc ++ [c])]
    have hap : (acc ++ [c]) ++ t = acc ++ (c :: t) := by simp
    rw [hap]
    cases lexFold rest (.inword (acc ++ (c :: t))) <;> rfl

theorem lexAll_ident {w : List Char} (h : isIdentOk w = true) :
    lexAll w = .ok [.ident w] := by
  cases w with
  | nil => cases h
  | cons c t =>
    unfold isIdentOk at h
    simp only [Bool.and_eq_true] at h
    obtain ⟨⟨⟨hstart, hall⟩, _⟩, _⟩ := h
    unfold isStartC at hstart
    simp only [Bool.and_eq_true, Bool.not_eq_true'] at hstart
    obtain ⟨halpha, hdig⟩ := hstart
    have hs : lexStep .idle c = .ok ([], .inword [c]) := by
      unfold lexStep
      simp [hdig, halpha, flushSt]
    unfold lexAll
    have h1 : lexFold (c :: t) .idle = (lexFold t (.inword [c])).map (fun r => [] ++ r) := by
      simp only [lexFold, hs]
    rw [h1]
    have hallt : ∀ x ∈ t, isWordC x = true := by
      intro x hx
      exact List.all_eq_true.mp hall x hx
    have h2 := lexFold_word_run hallt [] [c]
    rw [List.append_nil] at h2
    rw [h2]
    simp [lexFold, flushSt, mergeStars, Except.map]

theorem parseToks_ident {w : List Char} (hnin : (w == inWord) = false)
    (_hnfn : funcNames.contains w = false) :
    parseToks [.ident w] = .ok (.evar w) := by
  have hne : ¬ w = inWord := ne_of_beq_false hnin
  simp [parseToks, parseAdd, parseMul, parseUnary, parsePow, parseAtom,
    parseMulRest, parseAddRest, hne]

theorem astro_parse_and_eval_ident {w : List Char} (h : isIdentOk w = true)
    (v : Value) (ns : NS) :
    AstroCalculator.parse_and_eval w ((w, v) :: ns) = .ok (String.mk w, v) := by
  have hpieces := h
  cases w with
  | nil => cases h
  | cons c t =>
    unfold isIdentOk at hpieces
    simp only [Bool.and_eq_true] at hpieces
    obtain ⟨⟨_, hnin⟩, hnfn⟩ := hpieces
    unfold AstroCalculator.parse_and_eval parseE
    rw [lexAll_ident h]
    simp only [if_neg (by simp : ¬ ([Tok.ident (c :: t)] = []))]
    rw [parseToks_ident (by simpa using hnin) (by simpa using hnfn)]
    simp [evalExpr, lookupNS, printExpr]

theorem wordC_ne {c x : Char} (hc : isWordC c = true) (hx : isWordC x = false) :
    ¬ c = x := by
  intro h
  rw [h, hx] at hc
  cases hc

theorem ident_no_space {w : List Char} (h : isIdentOk w = true) :
    hasChar ' ' w = false := by
  cases w with
  | nil => rfl
  | cons c t =>
    unfold isIdentOk at h
    simp only [Bool.and_eq_true] at h
    obtain ⟨⟨⟨hstart, hall⟩, _⟩, _⟩ := h
    unfold isStartC at hstart
    simp only [Bool.and_eq_true, Bool.not_eq_true'] at hstart
    refine hasChar_eq_false ?_
    intro x hx
    rcases List.mem_cons.mp hx with rfl | hx
    · intro hsp
      rw [hsp] at hstart
      revert hstart
      decide
    · exact wordC_ne (List.all_eq_true.mp hall x hx) (by decide)

theorem assignLoop_append (xs ys : List (List Char)) (ns : NS) :
    AstroCalculator.assignLoop (xs ++ ys) ns =
      (match AstroCalculator.assignLoop xs ns with
       | (ns₁, none) => AstroCalculator.assignLoop ys ns₁
       | (ns₁, some e) => (ns₁, some e)) := by
  induction xs generalizing ns with
  | nil => simp [AstroCalculator.assignLoop]
  | cons l ls ih =>
    simp only [List.cons_append, AstroCalculator.assignLoop]
    cases AstroCalculator.astroStep ns l with
    | error e => rfl
    | ok ns₂ => exact ih ns₂

/-- Claim C10: when the final statement of an input is itself an
assignment `name = expr` with exactly one `=` (and the earlier
statements commit without raising), `AstroCalculator.calculate` does not
fail: the loop commits the assignment into the namespace, the terminal
expression is only the text left of the `=` — the variable name — and
the reported result is exactly the value just bound to that name. -/
theorem claim_C10_final_assignment
    (ns ns₁ : NS) (inp : String) (cs : List Char) (pre : List (List Char))
    (lastL varRaw valueRaw var : List Char) (pv : String) (v : Value) (si cgs : Out)
    (h0 : pyStrip inp.data = cs) (h1 : ¬ cs = [])
    (h2 : hasSubstr inSep cs = false)
    (h3 : pySplitC ',' cs = pre ++ [lastL])
    (h4 : AstroCalculator.assignLoop pre ns = (ns₁, none))
    (h5 : pySplitC '=' (pyStrip lastL) = [varRaw, valueRaw])
    (h6 : pyStrip varRaw = var)
    (h7 : isIdentOk var = true)
    (h8 : AstroCalculator.parse_and_eval valueRaw ns₁ = .ok (pv, v))
    (h9 : formatResult v = .ok (si, cgs)) :
    AstroCalculator.calculate ns inp =
      ((var, v) :: ns₁, .ok (.res (String.mk var) v si cgs none)) := by
  have hllne : ¬ pyStrip lastL = [] := by
    intro he
    rw [he] at h5
    cases h5
  have heqc : hasChar '=' (pyStrip lastL) = true := hasChar_of_pySplitC_two h5
  have hstep : AstroCalculator.astroStep ns₁ lastL = .ok ((var, v) :: ns₁) := by
    unfold AstroCalculator.astroStep
    simp [hllne, heqc, h5, h6, h8, ident_no_space h7]
  unfold AstroCalculator.calculate
  rw [h0]
  rw [if_neg h1]
  simp only [h2, Bool.false_eq_true, if_false, h3]
  rw [assignLoop_append pre [lastL] ns, h4]
  simp only [AstroCalculator.assignLoop, hstep]
  rw [getLastD_append_single pre lastL []]
  simp only [h5, List.headD, h6]
  rw [astro_parse_and_eval_ident h7 v ns₁]
  simp only [h9]

/-- Claim C10 witness: the single-statement input `"y = 7"` is a final
assignment; `calculate` commits `y := 7` and reports `7` — the value
just bound. -/
theorem claim_C10_witness :
    isIdentOk "y".data = true ∧
    AstroCalculator.calculate initNS "y = 7" =
      (("y".data, Value.int 7) :: initNS,
        .ok (.res (String.mk "y".data) (.int 7) (.int 7) (.int 7) none)) :=
  ⟨by decide,
    claim_C10_final_assignment initNS initNS "y = 7" "y = 7".data []
      "y = 7".data "y ".data " 7".data "y".data "7" (.int 7) (.int 7) (.int 7)
      (by decide) (by decide) (by decide) (by decide) (by decide) (by decide)
      (by decide) (by decide) (by decide) (by decide)⟩

/-- Claim C5, counterexample: `Msun` is a registered unit name — it is in
the `user_units` list and bound in the registry (to the `M_sun`
`Constant`) — but astropy's `.to` does not accept a `Constant`/`Quantity`
as a target: both `convert` implementations raise an uncaught `TypeError`
for it regardless of the quantity's dimension.  For a time-dimensioned
quantity the dimension vectors differ yet the failure is `TypeError`,
not the claimed `UnitConversionError`; and for a mass-dimensioned
quantity the vectors agree yet the conversion still fails. -/
theorem claim_C5_counterexample :
    user_units.contains "Msun" = true ∧
    lookupNS "Msun".data initNS =
      some (.qty MsunVal dimM
        (.constant "Name = Solar mass, Value = 1.9884e+30, Unit = kg")) ∧
    AstroCalculator.convert initNS (.qty 1 dimT .plain) "Msun" =
      .error (.typeError
        "1988400000000000000000000000000 kg^1 can not be converted to a Unit") ∧
    Calc.convert (.qty 1 dimM .plain) "Msun" =
      .error (.typeError
        "1988400000000000000000000000000 kg^1 can not be converted to a Unit") := by
  refine ⟨by decide, by decide, by decide, by decide⟩
